import Mathlib

/-!
Shallow embedding of the C-log logging facility (clog.c / clog.h, full-featured
variant with init modes and the four output formats).

Modelling conventions:
* The process-wide mutable globals of clog.c are gathered into `ClogState`,
  and every C function that touches them becomes a Lean function threading
  that state explicitly.
* `FILE *` handles are the abstract type `CStream`: the standard error stream,
  or a file handle obtained from `fopen` (identified by a number).  A `NULL`
  handle is `Option.none`.
* Bytes written to the active stream, and invocations of the cooperative
  lock/unlock hooks, are recorded as a list of `Event`s.
* Wall-clock time (`_printtime`) is nondeterministic in C; the formatted
  `"HH:MM:SS"` string is passed in as an explicit parameter `tstr`.
* `vfprintf`-style interpolation of the format string with the `va_list` is
  abstracted as a function `interp : List Char → String` giving, for any
  format string, the text that interpolation would produce; the raw format
  string itself is a `List Char`.
-/

/-- The `LogLevel` enum of clog.h: ascending numeric encoding 0..6. -/
inductive LogLevel
  | CLOG_DEBUG
  | CLOG_VERBOSE
  | CLOG_INFO
  | CLOG_NOTICE
  | CLOG_WARNING
  | CLOG_ERROR
  | CLOG_FATAL
deriving DecidableEq, Repr

/-- The numeric value of each enum constant (`CLOG_DEBUG = 0`, the rest
ascending by one, as C assigns them). -/
def LogLevel.toNat : LogLevel → Nat
  | .CLOG_DEBUG => 0
  | .CLOG_VERBOSE => 1
  | .CLOG_INFO => 2
  | .CLOG_NOTICE => 3
  | .CLOG_WARNING => 4
  | .CLOG_ERROR => 5
  | .CLOG_FATAL => 6

/-- Alias `CLOG_FILTER_ALL = CLOG_DEBUG`. -/
def CLOG_FILTER_ALL : LogLevel := .CLOG_DEBUG

/-- Alias `CLOG_FILTER_NONE = CLOG_FATAL`. -/
def CLOG_FILTER_NONE : LogLevel := .CLOG_FATAL

/-- `_levelnames` table of clog.c. -/
def _levelnames : LogLevel → String
  | .CLOG_DEBUG => "DEBUG"
  | .CLOG_VERBOSE => "VERBOSE"
  | .CLOG_INFO => "INFO"
  | .CLOG_NOTICE => "NOTICE"
  | .CLOG_WARNING => "WARNING"
  | .CLOG_ERROR => "ERROR"
  | .CLOG_FATAL => "FATAL"

/-- `_colorcodes` table of clog.c (ANSI SGR parameter strings). -/
def _colorcodes : LogLevel → String
  | .CLOG_DEBUG => "34"
  | .CLOG_VERBOSE => "36"
  | .CLOG_INFO => "32"
  | .CLOG_NOTICE => "33"
  | .CLOG_WARNING => "35"
  | .CLOG_ERROR => "31"
  | .CLOG_FATAL => "1;31"

/-- The `OutputAttribute` bit constants of clog.h (a bit-set over `Nat`). -/
def CLOG_ATTR_MINIMAL : Nat := 0x0

def CLOG_ATTR_TIME : Nat := 0x1

def CLOG_ATTR_FILE : Nat := 0x2

def CLOG_ATTR_FUNC : Nat := 0x4

def CLOG_ATTR_COLORED : Nat := 0x10

def CLOG_ATTR_VERBOSE : Nat := CLOG_ATTR_TIME ||| CLOG_ATTR_FILE ||| CLOG_ATTR_FUNC

/-- The `OutputFormat` enum of clog.h. -/
inductive OutputFormat
  | CLOG_FORMAT_TEXT
  | CLOG_FORMAT_XML
  | CLOG_FORMAT_CSV
  | CLOG_FORMAT_JSON
deriving DecidableEq, Repr

/-- The `InitMode` enum (truncate = fopen "w", append = fopen "a"). -/
inductive InitMode
  | CLOG_INIT_TRUNCATE
  | CLOG_INIT_APPEND
deriving DecidableEq, Repr

/-- An abstract `FILE *` handle: the standard error stream, or a handle
returned by `fopen` (numbered).  `NULL` is modelled as `Option.none` around
this type. -/
inductive CStream
  | stderr
  | file (id : Nat)
deriving DecidableEq, Repr

/-- The process-wide mutable globals of clog.c, as one record. -/
structure ClogState where
  /-- `_initmode` -/
  initmode : InitMode
  /-- `_logfile` (`none` = `NULL`) -/
  logfile : Option CStream
  /-- `_outputfmt` -/
  outputfmt : OutputFormat
  /-- `_outputattrs` -/
  outputattrs : Nat
  /-- `_filterlevel` -/
  filterlevel : LogLevel
  /-- `_json1stmsg` -/
  json1stmsg : Bool
  /-- whether `_lockfuncs[DO_LOCK]` is non-NULL -/
  lockfunc : Bool
  /-- whether `_lockfuncs[DO_UNLOCK]` is non-NULL -/
  unlockfunc : Bool
deriving DecidableEq, Repr

/-- The initial values of the globals at process start. -/
def initialState : ClogState :=
  { initmode := .CLOG_INIT_TRUNCATE
    logfile := none
    outputfmt := .CLOG_FORMAT_TEXT
    outputattrs := CLOG_ATTR_MINIMAL
    filterlevel := CLOG_FILTER_ALL
    json1stmsg := false
    lockfunc := false
    unlockfunc := false }

/-- An observable effect of a dispatch: a write of bytes to the active
stream, or an invocation of the lock / unlock hook. -/
inductive Event
  | write (s : String)
  | lock
  | unlock
deriving DecidableEq, Repr

/-- The bytes written to the stream by a list of events, in order. -/
def written : List Event → String
  | [] => ""
  | .write s :: evs => s ++ written evs
  | .lock :: evs => written evs
  | .unlock :: evs => written evs

/-- `_is_space` of clog.c: `('\t' <= c && c <= '\r') || c == ' '`. -/
def _is_space (c : Char) : Bool :=
  (9 ≤ c.toNat && c.toNat ≤ 13) || c = ' '

/-- `_msgblank` of clog.c: skip blank characters, true iff the terminator is
reached (i.e. every character of the string is blank). -/
def _msgblank : List Char → Bool
  | [] => true
  | c :: msg => _is_space c && _msgblank msg

/-- `DO_LOCK` index into `_lockfuncs`. -/
def DO_LOCK : Nat := 1

/-- `DO_UNLOCK` index into `_lockfuncs`. -/
def DO_UNLOCK : Nat := 0

/-- `_lock` of clog.c: invoke `_lockfuncs[i]` if it is set.  The invocation
is recorded as an event; an unset hook produces nothing. -/
def _lock (st : ClogState) (i : Nat) : List Event :=
  if i = DO_LOCK then
    if st.lockfunc then [Event.lock] else []
  else
    if st.unlockfunc then [Event.unlock] else []

/-- `pad7`: the effect of `printf`'s `"%-7s"` — left-justify, pad with
spaces to a minimum width of 7. -/
def pad7 (s : String) : String :=
  s ++ String.mk (List.replicate (7 - s.length) ' ')

/-- `_vlogmsg_text` of clog.c: the plain-text renderer.  Writes the optional
color-start sequence, optional `[time] `, optional `file:line[,] `, optional
`func() `, the padded level name and ` -- `, the optional color-reset, the
interpolated message and a newline. -/
def _vlogmsg_text (attrs : Nat) (file : String) (line : Nat) (func : String)
    (lvl : LogLevel) (fmt : List Char) (interp : List Char → String)
    (tstr : String) : String :=
  (if attrs &&& CLOG_ATTR_COLORED ≠ 0 then "\x1b[" ++ _colorcodes lvl ++ "m" else "")
    ++ (if attrs &&& CLOG_ATTR_TIME ≠ 0 then "[" ++ tstr ++ "] " else "")
    ++ (if attrs &&& CLOG_ATTR_FILE ≠ 0 then
          file ++ ":" ++ toString line
            ++ (if attrs &&& CLOG_ATTR_FUNC ≠ 0 then "," else "") ++ " "
        else "")
    ++ (if attrs &&& CLOG_ATTR_FUNC ≠ 0 then func ++ "() " else "")
    ++ pad7 (_levelnames lvl) ++ " -- "
    ++ (if attrs &&& CLOG_ATTR_COLORED ≠ 0 then "\x1b[0m" else "")
    ++ interp fmt
    ++ "\n"

/-- `_vlogmsg_xml` of clog.c: the XML renderer. -/
def _vlogmsg_xml (attrs : Nat) (file : String) (line : Nat) (func : String)
    (lvl : LogLevel) (fmt : List Char) (interp : List Char → String)
    (tstr : String) : String :=
  "\t<message "
    ++ (if attrs &&& CLOG_ATTR_TIME ≠ 0 then "time=\"" ++ tstr ++ "\" " else "")
    ++ (if attrs &&& CLOG_ATTR_FILE ≠ 0 then
          "file=\"" ++ file ++ "\" line=\"" ++ toString line ++ "\" "
        else "")
    ++ (if attrs &&& CLOG_ATTR_FUNC ≠ 0 then "func=\"" ++ func ++ "\" " else "")
    ++ "level=\"" ++ _levelnames lvl ++ "\">"
    ++ interp fmt
    ++ "</message>\n"

/-- `_vlogmsg_csv` of clog.c: the CSV (tab-separated) record renderer. -/
def _vlogmsg_csv (attrs : Nat) (file : String) (line : Nat) (func : String)
    (lvl : LogLevel) (fmt : List Char) (interp : List Char → String)
    (tstr : String) : String :=
  (if attrs &&& CLOG_ATTR_TIME ≠ 0 then tstr ++ "\t" else "")
    ++ (if attrs &&& CLOG_ATTR_FILE ≠ 0 then
          file ++ "\t" ++ toString line ++ "\t"
        else "")
    ++ (if attrs &&& CLOG_ATTR_FUNC ≠ 0 then func ++ "\t" else "")
    ++ _levelnames lvl ++ "\t"
    ++ interp fmt
    ++ "\n"

/-- `_vlogmsg_json` of clog.c: the JSON renderer.  Reads and clears the
`_json1stmsg` flag (returned as the first component): the separating comma
is written before every record except the first.  Note: the key of the
message field is written exactly as in the source, `"msg: "` — the colon
sits inside the quoted string. -/
def _vlogmsg_json (attrs : Nat) (json1stmsg : Bool) (file : String)
    (line : Nat) (func : String) (lvl : LogLevel) (fmt : List Char)
    (interp : List Char → String) (tstr : String) : Bool × String :=
  (false,
    (if json1stmsg then "" else ",")
      ++ "\n\t\t\x7b\n"
      ++ (if attrs &&& CLOG_ATTR_TIME ≠ 0 then
            "\t\t\t\"time\": \"" ++ tstr ++ "\",\n"
          else "")
      ++ (if attrs &&& CLOG_ATTR_FILE ≠ 0 then
            "\t\t\t\"file\": \"" ++ file ++ "\",\n\t\t\t\"line\": "
              ++ toString line ++ ",\n"
          else "")
      ++ (if attrs &&& CLOG_ATTR_FUNC ≠ 0 then
            "\t\t\t\"func\": \"" ++ func ++ "\",\n"
          else "")
      ++ "\t\t\t\"level\": \"" ++ _levelnames lvl ++ "\",\n"
      ++ "\t\t\t\"msg: \""
      ++ interp fmt
      ++ "\"\n\t\t\x7d")

/-- The `_outputfuncs` dispatch table of clog.c: select the renderer by the
active output format.  Only the JSON renderer touches the state (the
`_json1stmsg` flag). -/
def _outputfuncs (st : ClogState) (file : String) (line : Nat) (func : String)
    (lvl : LogLevel) (fmt : List Char) (interp : List Char → String)
    (tstr : String) : ClogState × String :=
  match st.outputfmt with
  | .CLOG_FORMAT_TEXT =>
      (st, _vlogmsg_text st.outputattrs file line func lvl fmt interp tstr)
  | .CLOG_FORMAT_XML =>
      (st, _vlogmsg_xml st.outputattrs file line func lvl fmt interp tstr)
  | .CLOG_FORMAT_CSV =>
      (st, _vlogmsg_csv st.outputattrs file line func lvl fmt interp tstr)
  | .CLOG_FORMAT_JSON =>
      let r := _vlogmsg_json st.outputattrs st.json1stmsg file line func lvl
                 fmt interp tstr
      ({ st with json1stmsg := r.1 }, r.2)

/-- The preamble bytes written by the `switch` of `_init` for a format.
For CSV, the column-header tests are the source's `a && CLOG_ATTR_...`:
C's *logical* AND, true iff both operands are nonzero. -/
def _init_preamble (fmt : OutputFormat) (a : Nat) : String :=
  match fmt with
  | .CLOG_FORMAT_XML =>
      "<?xml version=\"1.0\" encoding=\"UTF-8\" standalone=\"no\"?>\n"
        ++ "<!DOCTYPE log SYSTEM \"clog.dtd\">"
        ++ "<log>\n"
  | .CLOG_FORMAT_CSV =>
      (if a ≠ 0 ∧ CLOG_ATTR_TIME ≠ 0 then "Time (hh:mm:ss)\t" else "")
        ++ (if a ≠ 0 ∧ CLOG_ATTR_FILE ≠ 0 then "File name\tLine number\t" else "")
        ++ (if a ≠ 0 ∧ CLOG_ATTR_FUNC ≠ 0 then "Function name\t" else "")
        ++ "Level name\tMessage content\n"
  | .CLOG_FORMAT_JSON => "\x7b\n\t\"log\": ["
  | .CLOG_FORMAT_TEXT => ""

/-- `_init` of clog.c.  Returns `(success, new state, bytes written)`.
Rejects append mode with XML or JSON before touching any global; otherwise
installs the stream, mode, format and attributes, resets `_json1stmsg` for
JSON, and writes the format's preamble. -/
def _init (st : ClogState) (f : CStream) (m : InitMode) (fmt : OutputFormat)
    (a : Nat) : Bool × ClogState × String :=
  if m = .CLOG_INIT_APPEND ∧ (fmt = .CLOG_FORMAT_XML ∨ fmt = .CLOG_FORMAT_JSON)
  then (false, st, "")
  else
    let st := { st with logfile := some f, initmode := m, outputfmt := fmt }
    let st := if fmt = .CLOG_FORMAT_JSON then { st with json1stmsg := true } else st
    (true, { st with outputattrs := a }, _init_preamble fmt a)

/-- `clog_init_file` of clog.c: `fopen` the path, then `_init` on the handle.
The outcome of `fopen` is abstracted as `fopenResult` (`none` = open failed);
the `&&` short-circuits, so a failed open returns false untouched. -/
def clog_init_file (st : ClogState) (fopenResult : Option CStream)
    (m : InitMode) (fmt : OutputFormat) (a : Nat) : Bool × ClogState × String :=
  match fopenResult with
  | none => (false, st, "")
  | some f => _init st f m fmt a

/-- `clog_init` of clog.c: `_init(stderr, CLOG_INIT_TRUNCATE, fmt, a)`. -/
def clog_init (st : ClogState) (fmt : OutputFormat) (a : Nat) :
    Bool × ClogState × String :=
  _init st CStream.stderr .CLOG_INIT_TRUNCATE fmt a

/-- `clog_term` of clog.c: write the format's postamble, then
`fclose(_logfile)` — unconditionally.  Returns `(bytes written, the stream
handle passed to fclose)`. -/
def clog_term (st : ClogState) : String × Option CStream :=
  (match st.outputfmt with
   | .CLOG_FORMAT_XML => "</log>\n"
   | .CLOG_FORMAT_JSON => "\n\t]\n\x7d\n"
   | _ => "",
   st.logfile)

/-- `clog_getlogfile` of clog.c. -/
def clog_getlogfile (st : ClogState) : Option CStream :=
  st.logfile

/-- `clog_setfilterlevel` of clog.c. -/
def clog_setfilterlevel (st : ClogState) (lvl : LogLevel) : ClogState :=
  { st with filterlevel := lvl }

/-- `clog_getfilterlevel` of clog.c. -/
def clog_getfilterlevel (st : ClogState) : LogLevel :=
  st.filterlevel

/-- `clog_getfiltername` of clog.c. -/
def clog_getfiltername (st : ClogState) : String :=
  _levelnames st.filterlevel

/-- The stream-defaulting step at the top of `vlogmsg`: if `_logfile` is
`NULL` it is set to stderr, persistently. -/
def defaultStream (st : ClogState) : ClogState :=
  if st.logfile = none then { st with logfile := some CStream.stderr } else st

/-- `vlogmsg` of clog.c: the dispatch core.  Acquires the lock, defaults the
stream to stderr if unset, and if the filter passes: a blank message is
written verbatim (then unlock and return); a leading newline is written
bare and stripped; the active format's renderer is invoked; the lock is
released.  Note the placement of the unlock calls in the source: a message
that fails the filter check releases no lock. -/
def vlogmsg (st : ClogState) (file : String) (line : Nat) (func : String)
    (lvl : LogLevel) (fmt : List Char) (interp : List Char → String)
    (tstr : String) : ClogState × List Event :=
  let evLock := _lock st DO_LOCK
  let st := defaultStream st
  if st.filterlevel.toNat ≤ lvl.toNat then
    if _msgblank fmt then
      (st, evLock ++ [Event.write (String.mk fmt)] ++ _lock st DO_UNLOCK)
    else
      let pre : List Event := if fmt.head? = some '\n' then [Event.write "\n"] else []
      let fmt := if fmt.head? = some '\n' then fmt.tail else fmt
      let r := _outputfuncs st file line func lvl fmt interp tstr
      (r.1, evLock ++ pre ++ [Event.write r.2] ++ _lock r.1 DO_UNLOCK)
  else
    (st, evLock)

/-- `logmsg` of clog.c: wraps the variadic arguments and forwards to
`vlogmsg`. -/
def logmsg (st : ClogState) (file : String) (line : Nat) (func : String)
    (lvl : LogLevel) (fmt : List Char) (interp : List Char → String)
    (tstr : String) : ClogState × List Event :=
  vlogmsg st file line func lvl fmt interp tstr

/-! ### Helper lemmas -/

theorem written_append (a b : List Event) :
    written (a ++ b) = written a ++ written b := by
  induction a with
  | nil => simp [written]
  | cons e evs ih =>
      cases e <;> simp [written, ih, String.append_assoc]

theorem written_lock (st : ClogState) (i : Nat) : written (_lock st i) = "" := by
  unfold _lock
  split <;> split <;> rfl

theorem defaultStream_filterlevel (st : ClogState) :
    (defaultStream st).filterlevel = st.filterlevel := by
  unfold defaultStream
  split <;> rfl

theorem defaultStream_outputfmt (st : ClogState) :
    (defaultStream st).outputfmt = st.outputfmt := by
  unfold defaultStream
  split <;> rfl

theorem defaultStream_outputattrs (st : ClogState) :
    (defaultStream st).outputattrs = st.outputattrs := by
  unfold defaultStream
  split <;> rfl

theorem defaultStream_lockfunc (st : ClogState) :
    (defaultStream st).lockfunc = st.lockfunc := by
  unfold defaultStream
  split <;> rfl

theorem defaultStream_unlockfunc (st : ClogState) :
    (defaultStream st).unlockfunc = st.unlockfunc := by
  unfold defaultStream
  split <;> rfl

theorem _lock_defaultStream (st : ClogState) (i : Nat) :
    _lock (defaultStream st) i = _lock st i := by
  unfold _lock
  rw [defaultStream_lockfunc, defaultStream_unlockfunc]

theorem append_ne_empty_of_right (a b : String) (h : b.length ≠ 0) :
    a ++ b ≠ "" := by
  intro hc
  apply h
  have hlen := congrArg String.length hc
  rw [String.length_append] at hlen
  simp only [String.length_empty] at hlen
  omega

theorem _vlogmsg_text_ne_empty (attrs : Nat) (file : String) (line : Nat)
    (func : String) (lvl : LogLevel) (fmt : List Char)
    (interp : List Char → String) (tstr : String) :
    _vlogmsg_text attrs file line func lvl fmt interp tstr ≠ "" := by
  unfold _vlogmsg_text
  exact append_ne_empty_of_right _ "\n" (by decide)

theorem _vlogmsg_xml_ne_empty (attrs : Nat) (file : String) (line : Nat)
    (func : String) (lvl : LogLevel) (fmt : List Char)
    (interp : List Char → String) (tstr : String) :
    _vlogmsg_xml attrs file line func lvl fmt interp tstr ≠ "" := by
  unfold _vlogmsg_xml
  exact append_ne_empty_of_right _ "</message>\n" (by decide)

theorem _vlogmsg_csv_ne_empty (attrs : Nat) (file : String) (line : Nat)
    (func : String) (lvl : LogLevel) (fmt : List Char)
    (interp : List Char → String) (tstr : String) :
    _vlogmsg_csv attrs file line func lvl fmt interp tstr ≠ "" := by
  unfold _vlogmsg_csv
  exact append_ne_empty_of_right _ "\n" (by decide)

theorem _vlogmsg_json_ne_empty (attrs : Nat) (json1stmsg : Bool) (file : String)
    (line : Nat) (func : String) (lvl : LogLevel) (fmt : List Char)
    (interp : List Char → String) (tstr : String) :
    (_vlogmsg_json attrs json1stmsg file line func lvl fmt interp tstr).2 ≠ "" := by
  unfold _vlogmsg_json
  exact append_ne_empty_of_right _ "\"\n\t\t\x7d" (by decide)

theorem _outputfuncs_ne_empty (st : ClogState) (file : String) (line : Nat)
    (func : String) (lvl : LogLevel) (fmt : List Char)
    (interp : List Char → String) (tstr : String) :
    (_outputfuncs st file line func lvl fmt interp tstr).2 ≠ "" := by
  unfold _outputfuncs
  cases h : st.outputfmt <;> dsimp only
  · apply _vlogmsg_text_ne_empty
  · apply _vlogmsg_xml_ne_empty
  · apply _vlogmsg_csv_ne_empty
  · apply _vlogmsg_json_ne_empty

/-- Branch characterization of `vlogmsg`: a message that fails the filter
check only produces the lock acquisition. -/
theorem vlogmsg_filtered (st : ClogState) (file : String) (line : Nat)
    (func : String) (lvl : LogLevel) (fmt : List Char)
    (interp : List Char → String) (tstr : String)
    (h : ¬ st.filterlevel.toNat ≤ lvl.toNat) :
    vlogmsg st file line func lvl fmt interp tstr =
      (defaultStream st, _lock st DO_LOCK) := by
  simp only [vlogmsg, defaultStream_filterlevel]
  rw [if_neg h]

/-- Branch characterization of `vlogmsg`: a blank message passing the filter
is written verbatim between the lock and unlock invocations. -/
theorem vlogmsg_blank (st : ClogState) (file : String) (line : Nat)
    (func : String) (lvl : LogLevel) (fmt : List Char)
    (interp : List Char → String) (tstr : String)
    (hp : st.filterlevel.toNat ≤ lvl.toNat) (hb : _msgblank fmt = true) :
    vlogmsg st file line func lvl fmt interp tstr =
      (defaultStream st,
       _lock st DO_LOCK ++ [Event.write (String.mk fmt)] ++ _lock st DO_UNLOCK) := by
  simp only [vlogmsg, defaultStream_filterlevel]
  rw [if_pos hp, if_pos hb, _lock_defaultStream]

/-- Branch characterization of `vlogmsg`: a non-blank message passing the
filter goes through the leading-newline step and the format renderer. -/
theorem vlogmsg_render (st : ClogState) (file : String) (line : Nat)
    (func : String) (lvl : LogLevel) (fmt : List Char)
    (interp : List Char → String) (tstr : String)
    (hp : st.filterlevel.toNat ≤ lvl.toNat) (hb : _msgblank fmt = false) :
    vlogmsg st file line func lvl fmt interp tstr =
      (let fmt1 := if fmt.head? = some '\n' then fmt.tail else fmt
       let r := _outputfuncs (defaultStream st) file line func lvl fmt1 interp tstr
       (r.1,
        _lock st DO_LOCK
          ++ (if fmt.head? = some '\n' then [Event.write "\n"] else [])
          ++ [Event.write r.2] ++ _lock r.1 DO_UNLOCK)) := by
  simp only [vlogmsg, defaultStream_filterlevel]
  rw [if_pos hp, if_neg (by simp [hb])]

theorem length_ne_zero_of_ne_empty (s : String) (h : s ≠ "") : s.length ≠ 0 := by
  rcases s with ⟨data⟩
  cases data with
  | nil => exact absurd rfl h
  | cons c cs => simp [String.length_mk]

/-- The bytes a dispatch writes when the filter passes and the message is
not blank: the optional bare newline, then the active renderer's output on
the message with any leading newline stripped. -/
theorem written_vlogmsg_pass (st : ClogState) (file : String) (line : Nat)
    (func : String) (lvl : LogLevel) (fmt : List Char)
    (interp : List Char → String) (tstr : String)
    (hp : st.filterlevel.toNat ≤ lvl.toNat) (hb : _msgblank fmt = false) :
    written (vlogmsg st file line func lvl fmt interp tstr).2 =
      (if fmt.head? = some '\n' then "\n" else "")
        ++ (_outputfuncs (defaultStream st) file line func lvl
              (if fmt.head? = some '\n' then fmt.tail else fmt) interp tstr).2 := by
  rw [vlogmsg_render st file line func lvl fmt interp tstr hp hb]
  by_cases hnl : fmt.head? = some '\n' <;>
    simp [hnl, written_append, written_lock, written, String.append_empty,
      String.empty_append]

theorem _outputfuncs_logfile (st : ClogState) (file : String) (line : Nat)
    (func : String) (lvl : LogLevel) (fmt : List Char)
    (interp : List Char → String) (tstr : String) :
    (_outputfuncs st file line func lvl fmt interp tstr).1.logfile = st.logfile := by
  unfold _outputfuncs
  cases h : st.outputfmt <;> rfl

theorem defaultStream_logfile_of_none (st : ClogState) (h : st.logfile = none) :
    (defaultStream st).logfile = some CStream.stderr := by
  unfold defaultStream
  rw [if_pos h]

/-! ### The claims -/

/-- C1: with the filter configured at `L2`, a dispatch of a non-blank
message at a level `L1` strictly below `L2` (in the ascending numeric
encoding `DEBUG < VERBOSE < INFO < NOTICE < WARNING < ERROR < FATAL`)
writes nothing, and a dispatch at a level numerically at or above `L2`
produces output; the comparison is `message_level >= filter_level`. -/
theorem C1_level_filtering (st : ClogState) (L1 L2 : LogLevel) (file : String)
    (line : Nat) (func : String) (fmt : List Char)
    (interp : List Char → String) (tstr : String)
    (hf : st.filterlevel = L2) (hnb : _msgblank fmt = false) :
    (L1.toNat < L2.toNat →
      written (vlogmsg st file line func L1 fmt interp tstr).2 = "") ∧
    (L2.toNat ≤ L1.toNat →
      written (vlogmsg st file line func L1 fmt interp tstr).2 ≠ "") ∧
    (LogLevel.CLOG_DEBUG.toNat < LogLevel.CLOG_VERBOSE.toNat ∧
     LogLevel.CLOG_VERBOSE.toNat < LogLevel.CLOG_INFO.toNat ∧
     LogLevel.CLOG_INFO.toNat < LogLevel.CLOG_NOTICE.toNat ∧
     LogLevel.CLOG_NOTICE.toNat < LogLevel.CLOG_WARNING.toNat ∧
     LogLevel.CLOG_WARNING.toNat < LogLevel.CLOG_ERROR.toNat ∧
     LogLevel.CLOG_ERROR.toNat < LogLevel.CLOG_FATAL.toNat) := by
  refine ⟨?_, ?_, by decide⟩
  · intro hlt
    rw [vlogmsg_filtered st file line func L1 fmt interp tstr
          (by rw [hf]; omega)]
    exact written_lock st DO_LOCK
  · intro hge
    rw [written_vlogmsg_pass st file line func L1 fmt interp tstr
          (by rw [hf]; omega) hnb]
    apply append_ne_empty_of_right
    apply length_ne_zero_of_ne_empty
    apply _outputfuncs_ne_empty

/-- Witness for C1: with filter = INFO, a non-blank DEBUG dispatch writes
nothing and a non-blank WARNING dispatch produces output. -/
theorem C1_level_filtering_witness :
    written (vlogmsg (clog_setfilterlevel initialState .CLOG_INFO) "f.c" 1
        "main" .CLOG_DEBUG ['h', 'i'] (fun s => String.mk s) "12:00:00").2 = "" ∧
    written (vlogmsg (clog_setfilterlevel initialState .CLOG_INFO) "f.c" 1
        "main" .CLOG_WARNING ['h', 'i'] (fun s => String.mk s) "12:00:00").2 ≠ "" :=
  ⟨(C1_level_filtering (clog_setfilterlevel initialState .CLOG_INFO)
      .CLOG_DEBUG .CLOG_INFO "f.c" 1 "main" ['h', 'i'] (fun s => String.mk s)
      "12:00:00" rfl (by decide)).1 (by decide),
   ((C1_level_filtering (clog_setfilterlevel initialState .CLOG_INFO)
      .CLOG_WARNING .CLOG_INFO "f.c" 1 "main" ['h', 'i'] (fun s => String.mk s)
      "12:00:00" rfl (by decide)).2.1 (by decide))⟩

/-- C2: a whitespace-only message (blank per `_msgblank`, which is applied
to the raw format string — the output does not depend on `interp`) is
written byte-for-byte with no header and no framing when its level passes
the filter, for every attribute set and every output format; a blank
message below the filter writes nothing. -/
theorem C2_blank_passthrough (st : ClogState) (file : String) (line : Nat)
    (func : String) (lvl : LogLevel) (fmt : List Char)
    (interp : List Char → String) (tstr : String)
    (hb : _msgblank fmt = true) :
    (st.filterlevel.toNat ≤ lvl.toNat →
      written (vlogmsg st file line func lvl fmt interp tstr).2 = String.mk fmt) ∧
    (¬ st.filterlevel.toNat ≤ lvl.toNat →
      written (vlogmsg st file line func lvl fmt interp tstr).2 = "") := by
  constructor
  · intro hp
    rw [vlogmsg_blank st file line func lvl fmt interp tstr hp hb]
    simp [written_append, written_lock, written, String.append_empty,
      String.empty_append]
  · intro hfail
    rw [vlogmsg_filtered st file line func lvl fmt interp tstr hfail]
    exact written_lock st DO_LOCK

/-- Witness for C2: the message `" \n"` dispatched at WARNING with XML
format and all attributes set is written byte-for-byte (the interpolation
function is irrelevant); the same message at DEBUG under filter = INFO
writes nothing. -/
theorem C2_blank_passthrough_witness :
    written (vlogmsg ((clog_init initialState .CLOG_FORMAT_XML
        CLOG_ATTR_VERBOSE).2.1) "f.c" 3 "main" .CLOG_WARNING [' ', '\n']
        (fun _ => "IGNORED") "12:00:00").2 = String.mk [' ', '\n'] ∧
    written (vlogmsg (clog_setfilterlevel initialState .CLOG_INFO) "f.c" 3
        "main" .CLOG_DEBUG [' ', '\n'] (fun _ => "IGNORED") "12:00:00").2 = "" :=
  ⟨(C2_blank_passthrough ((clog_init initialState .CLOG_FORMAT_XML
      CLOG_ATTR_VERBOSE).2.1) "f.c" 3 "main" .CLOG_WARNING [' ', '\n']
      (fun _ => "IGNORED") "12:00:00" (by decide)).1 (by decide),
   (C2_blank_passthrough (clog_setfilterlevel initialState .CLOG_INFO) "f.c" 3
      "main" .CLOG_DEBUG [' ', '\n'] (fun _ => "IGNORED") "12:00:00"
      (by decide)).2 (by decide)⟩

/-- C5: initializing to a file with append mode and the XML or JSON format
fails: `clog_init_file` returns false, the state (stream, init mode, output
format, output attributes) is untouched, and no preamble byte is written —
whatever `fopen` did. -/
theorem C5_append_xml_json_rejected (st : ClogState)
    (fopenResult : Option CStream) (fmt : OutputFormat) (a : Nat)
    (hfmt : fmt = .CLOG_FORMAT_XML ∨ fmt = .CLOG_FORMAT_JSON) :
    clog_init_file st fopenResult .CLOG_INIT_APPEND fmt a = (false, st, "") := by
  cases fopenResult with
  | none => rfl
  | some f =>
      unfold clog_init_file _init
      dsimp only
      exact if_pos ⟨rfl, hfmt⟩

/-- Witness for C5: appending with XML format on a successfully opened file
returns false and leaves the pristine state unchanged with no output. -/
theorem C5_append_xml_json_rejected_witness :
    clog_init_file initialState (some (CStream.file 0)) .CLOG_INIT_APPEND
      .CLOG_FORMAT_XML CLOG_ATTR_VERBOSE = (false, initialState, "") :=
  C5_append_xml_json_rejected initialState (some (CStream.file 0))
    .CLOG_FORMAT_XML CLOG_ATTR_VERBOSE (Or.inl rfl)

/-- C6: a non-blank message whose first character is `'\n'`, at a level
passing the filter, writes one bare newline first and then exactly the
active renderer's output (header per format and attributes) on the message
with that single leading newline removed. -/
theorem C6_leading_newline (st : ClogState) (file : String) (line : Nat)
    (func : String) (lvl : LogLevel) (rest : List Char)
    (interp : List Char → String) (tstr : String)
    (hp : st.filterlevel.toNat ≤ lvl.toNat)
    (hnb : _msgblank ('\n' :: rest) = false) :
    written (vlogmsg st file line func lvl ('\n' :: rest) interp tstr).2 =
      "\n" ++ (_outputfuncs (defaultStream st) file line func lvl rest interp
                 tstr).2 := by
  rw [written_vlogmsg_pass st file line func lvl ('\n' :: rest) interp tstr hp hnb]
  simp

/-- Witness for C6: dispatching `"\nhi"` at WARNING on the pristine state
writes a bare newline followed by the text-format rendering of `"hi"`. -/
theorem C6_leading_newline_witness :
    written (vlogmsg initialState "f.c" 1 "main" .CLOG_WARNING
        ['\n', 'h', 'i'] (fun s => String.mk s) "12:00:00").2 =
      "\n" ++ (_outputfuncs (defaultStream initialState) "f.c" 1 "main"
        .CLOG_WARNING ['h', 'i'] (fun s => String.mk s) "12:00:00").2 :=
  C6_leading_newline initialState "f.c" 1 "main" .CLOG_WARNING ['h', 'i']
    (fun s => String.mk s) "12:00:00" (by decide) (by decide)

/-- C9: a dispatch made while the stream is unset persistently installs
standard error as the stream — at every level, so also when the message is
filtered out — and a subsequent `clog_getlogfile` returns it. -/
theorem C9_lazy_stderr_default (st : ClogState) (file : String) (line : Nat)
    (func : String) (lvl : LogLevel) (fmt : List Char)
    (interp : List Char → String) (tstr : String)
    (h : st.logfile = none) :
    clog_getlogfile (vlogmsg st file line func lvl fmt interp tstr).1 =
      some CStream.stderr := by
  unfold clog_getlogfile
  by_cases hp : st.filterlevel.toNat ≤ lvl.toNat
  · by_cases hb : _msgblank fmt = true
    · rw [vlogmsg_blank st file line func lvl fmt interp tstr hp hb]
      exact defaultStream_logfile_of_none st h
    · have hb' : _msgblank fmt = false := by
        revert hb; cases _msgblank fmt <;> simp
      rw [vlogmsg_render st file line func lvl fmt interp tstr hp hb']
      rw [_outputfuncs_logfile]
      exact defaultStream_logfile_of_none st h
  · rw [vlogmsg_filtered st file line func lvl fmt interp tstr hp]
    exact defaultStream_logfile_of_none st h

/-- Witness for C9: a DEBUG dispatch that the filter (= FATAL) suppresses
still installs stderr as the stream. -/
theorem C9_lazy_stderr_default_witness :
    clog_getlogfile (vlogmsg (clog_setfilterlevel initialState .CLOG_FATAL)
        "f.c" 1 "main" .CLOG_DEBUG ['h', 'i'] (fun s => String.mk s)
        "12:00:00").1 = some CStream.stderr :=
  C9_lazy_stderr_default (clog_setfilterlevel initialState .CLOG_FATAL)
    "f.c" 1 "main" .CLOG_DEBUG ['h', 'i'] (fun s => String.mk s) "12:00:00" rfl

/-- C10: `clog_init` always succeeds — it uses truncate mode and the stderr
stream, so the append-mode rejection can never trigger and no open can
fail — and installs stderr, the given format and the given attributes. -/
theorem C10_clog_init_total (st : ClogState) (fmt : OutputFormat) (a : Nat) :
    (clog_init st fmt a).1 = true ∧
    (clog_init st fmt a).2.1.logfile = some CStream.stderr ∧
    (clog_init st fmt a).2.1.outputfmt = fmt ∧
    (clog_init st fmt a).2.1.outputattrs = a := by
  unfold clog_init _init
  rw [if_neg (by rintro ⟨h, -⟩; cases h)]
  by_cases hj : fmt = .CLOG_FORMAT_JSON <;> simp [hj]

/-- The state C3 fails on: both hooks installed, filter level ERROR. -/
def C3state : ClogState :=
  { initialState with
    filterlevel := .CLOG_ERROR
    lockfunc := true
    unlockfunc := true }

/-- C3 (bug in the source): with both hooks installed and filter = ERROR, a
DEBUG dispatch — suppressed by the filter — invokes the lock hook once but
the unlock hook zero times: in `vlogmsg` the final `_lock(DO_UNLOCK)` sits
inside the `if(_filterlevel <= lvl)` block, so the filtered path returns
with the lock still held. -/
theorem C3_filtered_path_skips_unlock :
    ((vlogmsg C3state "f.c" 1 "main" .CLOG_DEBUG ['h', 'i']
        (fun s => String.mk s) "12:00:00").2.count Event.lock = 1) ∧
    ((vlogmsg C3state "f.c" 1 "main" .CLOG_DEBUG ['h', 'i']
        (fun s => String.mk s) "12:00:00").2.count Event.unlock = 0) := by
  decide

/-- Number of tab-separated columns in one CSV row. -/
def colCount (s : String) : Nat :=
  s.toList.count '\t' + 1

/-- C4 (bug in the source): with attributes = TIME only, the CSV header row
written by initialize has 6 columns — `_init` tests `a && CLOG_ATTR_...`
with C's logical AND, so any nonzero attribute set emits every header
column — while a record row (which tests `&` correctly) has the 3 columns
the claim predicts (1 set bit among TIME/FILE/FUNC plus level and
message). -/
theorem C4_csv_header_column_mismatch :
    colCount ((_init initialState (CStream.file 0) .CLOG_INIT_TRUNCATE
        .CLOG_FORMAT_CSV CLOG_ATTR_TIME).2.2) = 6 ∧
    colCount (_vlogmsg_csv CLOG_ATTR_TIME "f.c" 1 "main" .CLOG_WARNING
        ['h', 'i'] (fun s => String.mk s) "12:34:56") = 3 := by
  decide

/-- C7 (bug in the source): a JSON record carries no well-formed `"msg"`
key — `_vlogmsg_json` prints the literal `"msg: "` (colon inside the
quoted string, no key-value separator), contradicting the intended layout
`"msg": "..."` shown in the function's own comment.  Evaluated here on the
first record after initialize (no leading comma, MINIMAL attributes). -/
theorem C7_json_msg_key_malformed :
    (_vlogmsg_json CLOG_ATTR_MINIMAL true "myfile.c" 42 "main" .CLOG_WARNING
        ("There is a bug!".toList) (fun s => String.mk s) "15:36:23").2 =
      "\n\t\t\x7b\n\t\t\t\"level\": \"WARNING\",\n\t\t\t\"msg: \"There is a bug!\"\n\t\t\x7d" := by
  decide

/-- C8 counterexample: after `clog_init` the active stream is the
caller-supplied standard error — `initialize` opened nothing — yet
`clog_term` passes it to `fclose`. -/
theorem C8_counterexample_closes_stderr :
    (clog_term (clog_init initialState .CLOG_FORMAT_TEXT
        CLOG_ATTR_MINIMAL).2.1).2 = some CStream.stderr := by
  decide

/-- C8 amended: `clog_term` writes the active format's postamble — the XML
root-close tag `</log>` and newline for XML, the array-close plus
object-close `\n\t]\n}\n` for JSON, nothing for TEXT and CSV — and passes
the current stream to `fclose` unconditionally, whatever its origin; there
is no tracking of whether the stream was opened by `initialize`. -/
theorem C8_term_postamble_and_unconditional_close (st : ClogState) :
    (clog_term st).2 = st.logfile ∧
    (clog_term st).1 =
      (if st.outputfmt = .CLOG_FORMAT_XML then "</log>\n"
       else if st.outputfmt = .CLOG_FORMAT_JSON then "\n\t]\n\x7d\n"
       else "") := by
  constructor
  · rfl
  · cases h : st.outputfmt <;> simp [clog_term, h]
